import Mathlib

/-!
Verification of the `rust_xlsxwriter` spreadsheet library against its
natural-language specification.

This file gives a shallow embedding of the parts of the library that the
verified properties are about:

* `src/image.rs` — the image metadata parser (`Image::new`, `process_png`,
  `process_jpg`, `process_bmp`, `process_gif` and the byte-unpacking helpers);
* `src/serializer.rs` — the serde serialization bridge (`SerializerState`,
  `current_state`, the `Serializer` impl for `&mut Worksheet`, the header
  deserializer `DeSerializerHeader` / `deserialize_headers`);
* `src/core.rs` — assembly of the `docProps/core.xml` part.

Conventions of the embedding:

* Rust `f64` values are modelled as `ℚ`: every arithmetic operation the
  embedded code performs (multiplication of an integer by the constants
  `0.0254` and `2.54`, comparison with `0.0` and `1.0`, assignment of the
  constant `96.0`) is exact in rational arithmetic.
* Machine integers (`u8`, `u16`, `u32`) are modelled as `Nat`; none of the
  embedded operations can overflow on the inputs the theorems quantify over.
* Byte streams are `List Nat`.  An out-of-range slice, which panics in Rust,
  is modelled by `List.getD _ _ 0`; the theorems restrict their inputs to the
  in-bounds domain on which the Rust code is defined.
* The scanning `while` loops of `process_png` / `process_jpg` are modelled by
  structural recursion on a fuel argument initialised to `data.length + 1`.
  The fuel can never run out before the loop's own exit condition fires: each
  iteration advances `offset` by at least `12` (PNG) resp. `2` (JPEG) and the
  loop stops as soon as `offset ≥ data.length`, so at most `data.length`
  iterations are possible.
-/

namespace RustXlsxWriter

/-! ## Errors (`src/error.rs`, as used by the embedded modules) -/

/-- The error variants of `XlsxError` used by the embedded code: unknown image
format, zero/unreadable image dimensions, and serde errors. -/
inductive XlsxError where
  | UnknownImageType
  | ImageDimensionError
  | SerdeError (message : String)
deriving DecidableEq

/-! ## `src/image.rs` -/

/-- `XlsxImageType` from `image.rs`. -/
inductive XlsxImageType where
  | Unknown
  | Png
  | Jpg
  | Gif
  | Bmp
deriving DecidableEq

/-- The `Image` struct from `image.rs`.  The `path` field (a filesystem path)
is omitted: the embedding passes the file's bytes directly.  The `x_offset`,
`y_offset` and `alt_text` fields are kept with their initial values. -/
structure Image where
  height : ℚ
  width : ℚ
  width_dpi : ℚ
  height_dpi : ℚ
  scale_width : ℚ
  scale_height : ℚ
  has_default_dpi : Bool
  x_offset : Nat
  y_offset : Nat
  image_type : XlsxImageType
  alt_text : String
deriving DecidableEq

/-- `unpack_u16_from_be_bytes` from `image.rs`. -/
def unpack_u16_from_be_bytes (data : List Nat) (offset : Nat) : Nat :=
  data.getD offset 0 * 256 + data.getD (offset + 1) 0

/-- `unpack_u16_from_le_bytes` from `image.rs`. -/
def unpack_u16_from_le_bytes (data : List Nat) (offset : Nat) : Nat :=
  data.getD (offset + 1) 0 * 256 + data.getD offset 0

/-- `unpack_u32_from_be_bytes` from `image.rs`. -/
def unpack_u32_from_be_bytes (data : List Nat) (offset : Nat) : Nat :=
  ((data.getD offset 0 * 256 + data.getD (offset + 1) 0) * 256
      + data.getD (offset + 2) 0) * 256 + data.getD (offset + 3) 0

/-- `unpack_u32_from_le_bytes` from `image.rs`. -/
def unpack_u32_from_le_bytes (data : List Nat) (offset : Nat) : Nat :=
  ((data.getD (offset + 3) 0 * 256 + data.getD (offset + 2) 0) * 256
      + data.getD (offset + 1) 0) * 256 + data.getD offset 0

/-- The loop-local state of `process_png` / `process_jpg`: the `width`,
`height`, `width_dpi`, `height_dpi` locals plus the `has_default_dpi` flag the
loops mutate. -/
structure ImageScan where
  width : Nat
  height : Nat
  width_dpi : ℚ
  height_dpi : ℚ
  has_default_dpi : Bool
deriving DecidableEq

/-- The `while offset < data_length` loop of `Image::process_png`.  Each
conditional mutation of a loop variable is rendered as a per-field conditional
update; `0x49484452` is `"IHDR"`, `0x70485973` is `"pHYs"`, `0x49454E44` is
`"IEND"` as byte lists. -/
def pngLoop (data : List Nat) (fuel offset : Nat) (s : ImageScan) : ImageScan :=
  match fuel with
  | 0 => s
  | fuel + 1 =>
    if offset < data.length then
      let marker := [data.getD (offset + 4) 0, data.getD (offset + 5) 0,
        data.getD (offset + 6) 0, data.getD (offset + 7) 0]
      let length := unpack_u32_from_be_bytes data offset
      -- Read the image dimensions (the "IHDR" chunk).
      let s : ImageScan :=
        { width := if marker = [73, 72, 68, 82] then
            unpack_u32_from_be_bytes data (offset + 8) else s.width
          height := if marker = [73, 72, 68, 82] then
            unpack_u32_from_be_bytes data (offset + 12) else s.height
          -- Read the image DPI values (the "pHYs" chunk, units byte = 1).
          width_dpi := if marker = [112, 72, 89, 115] ∧ data.getD (offset + 16) 0 = 1 then
            (unpack_u32_from_be_bytes data (offset + 8) : ℚ) * (254 / 10000) else s.width_dpi
          height_dpi := if marker = [112, 72, 89, 115] ∧ data.getD (offset + 16) 0 = 1 then
            (unpack_u32_from_be_bytes data (offset + 12) : ℚ) * (254 / 10000) else s.height_dpi
          has_default_dpi := if marker = [112, 72, 89, 115] ∧ data.getD (offset + 16) 0 = 1 then
            false else s.has_default_dpi }
      if marker = [73, 69, 78, 68] then s
      else pngLoop data fuel (offset + length + 12) s
    else s

/-- `Image::process_png`: scan the chunks starting at offset 8, then store the
result and mark the image type as PNG. -/
def Image.process_png (self : Image) (data : List Nat) : Image :=
  let s := pngLoop data (data.length + 1) 8
    { width := 0, height := 0, width_dpi := 96, height_dpi := 96,
      has_default_dpi := self.has_default_dpi }
  { self with
    width := s.width, height := s.height,
    width_dpi := s.width_dpi, height_dpi := s.height_dpi,
    has_default_dpi := s.has_default_dpi,
    image_type := XlsxImageType.Png }

/-- The `while offset < data_length` loop of `Image::process_jpg`.  The SOF
test `(marker & 0xFFF0) == 0xFFC0 && marker != 0xFFC4/C8/CC`, the APP0
(`0xFFE0`) density extraction with its two unit conventions, and the
`width_dpi == 0.0 || width_dpi == 1.0` workaround are rendered as per-field
conditional updates in the same order as the source. -/
def jpgLoop (data : List Nat) (fuel offset : Nat) (s : ImageScan) : ImageScan :=
  match fuel with
  | 0 => s
  | fuel + 1 =>
    if offset < data.length then
      let marker := unpack_u16_from_be_bytes data offset
      let length := unpack_u16_from_be_bytes data (offset + 2)
      -- Fields read inside the 0xFFE0 branch (pure byte reads, hoisted).
      let units := data.getD (offset + 11) 0
      let x_density := unpack_u16_from_be_bytes data (offset + 12)
      let y_density := unpack_u16_from_be_bytes data (offset + 14)
      -- The density assignments of the units = 1 / units = 2 branches (which
      -- are mutually exclusive), before the workaround is applied.
      let width_dpi := if marker = 0xFFE0 ∧ units = 1 then (x_density : ℚ)
        else if marker = 0xFFE0 ∧ units = 2 then (x_density : ℚ) * (254 / 100)
        else s.width_dpi
      let height_dpi := if marker = 0xFFE0 ∧ units = 1 then (y_density : ℚ)
        else if marker = 0xFFE0 ∧ units = 2 then (y_density : ℚ) * (254 / 100)
        else s.height_dpi
      let s : ImageScan :=
        { -- Read the height and width in the 0xFFCn elements (except C4, C8
          -- and CC which are not SOF markers).
          height := if marker &&& 0xFFF0 = 0xFFC0 ∧ marker ≠ 0xFFC4 ∧ marker ≠ 0xFFC8 ∧
              marker ≠ 0xFFCC then unpack_u16_from_be_bytes data (offset + 5) else s.height
          width := if marker &&& 0xFFF0 = 0xFFC0 ∧ marker ≠ 0xFFC4 ∧ marker ≠ 0xFFC8 ∧
              marker ≠ 0xFFCC then unpack_u16_from_be_bytes data (offset + 7) else s.width
          -- Workaround for incorrect dpi (applies inside the 0xFFE0 branch).
          width_dpi := if marker = 0xFFE0 ∧ (width_dpi = 0 ∨ width_dpi = 1) then 96
            else width_dpi
          height_dpi := if marker = 0xFFE0 ∧ (height_dpi = 0 ∨ height_dpi = 1) then 96
            else height_dpi
          has_default_dpi := if marker = 0xFFE0 ∧ units = 2 then false
            else s.has_default_dpi }
      if marker = 0xFFDA then s
      else jpgLoop data fuel (offset + length + 2) s
    else s

/-- `Image::process_jpg`: scan the segments starting at offset 2, then store
the result and mark the image type as JPG. -/
def Image.process_jpg (self : Image) (data : List Nat) : Image :=
  let s := jpgLoop data (data.length + 1) 2
    { width := 0, height := 0, width_dpi := 96, height_dpi := 96,
      has_default_dpi := self.has_default_dpi }
  { self with
    width := s.width, height := s.height,
    width_dpi := s.width_dpi, height_dpi := s.height_dpi,
    has_default_dpi := s.has_default_dpi,
    image_type := XlsxImageType.Jpg }

/-- `Image::process_bmp`: width and height as little-endian u32 at offsets 18
and 22; the DPI is the constant 96.0. -/
def Image.process_bmp (self : Image) (data : List Nat) : Image :=
  { self with
    width := (unpack_u32_from_le_bytes data 18 : ℚ),
    height := (unpack_u32_from_le_bytes data 22 : ℚ),
    width_dpi := 96, height_dpi := 96,
    image_type := XlsxImageType.Bmp }

/-- `Image::process_gif`: width and height as little-endian u16 at offsets 6
and 8; the DPI is the constant 96.0. -/
def Image.process_gif (self : Image) (data : List Nat) : Image :=
  { self with
    width := (unpack_u16_from_le_bytes data 6 : ℚ),
    height := (unpack_u16_from_le_bytes data 8 : ℚ),
    width_dpi := 96, height_dpi := 96,
    image_type := XlsxImageType.Gif }

/-- The `png_marker == "PNG".as_bytes()` test of `Image::process_image`
(`data[1..4]`, bytes `80 78 71`). -/
abbrev pngSig (data : List Nat) : Prop :=
  [data.getD 1 0, data.getD 2 0, data.getD 3 0] = [80, 78, 71]

/-- The `jpg_marker == 0xFFD8` test of `Image::process_image`. -/
abbrev jpgSig (data : List Nat) : Prop :=
  unpack_u16_from_be_bytes data 0 = 0xFFD8

/-- The `bmp_marker == "BM".as_bytes()` test of `Image::process_image`
(`data[0..2]`, bytes `66 77`). -/
abbrev bmpSig (data : List Nat) : Prop :=
  [data.getD 0 0, data.getD 1 0] = [66, 77]

/-- The `gif_marker == "GIF8".as_bytes()` test of `Image::process_image`
(`data[0..4]`, bytes `71 73 70 56`). -/
abbrev gifSig (data : List Nat) : Prop :=
  [data.getD 0 0, data.getD 1 0, data.getD 2 0, data.getD 3 0] = [71, 73, 70, 56]

/-- `Image::process_image` (minus the file I/O, which the embedding replaces
by passing the bytes directly): dispatch on the magic-byte signatures in the
source's order; an unrecognized stream leaves the image unchanged. -/
def Image.process_image (self : Image) (data : List Nat) : Image :=
  if pngSig data then self.process_png data
  else if jpgSig data then self.process_jpg data
  else if bmpSig data then self.process_bmp data
  else if gifSig data then self.process_gif data
  else self

/-- The freshly initialised `Image` record built at the start of `Image::new`
(`width`/`height` 0, DPI 96, scale 1, type `Unknown`). -/
def imageInit : Image :=
  { height := 0, width := 0, width_dpi := 96, height_dpi := 96,
    scale_width := 1, scale_height := 1, has_default_dpi := true,
    x_offset := 0, y_offset := 0, image_type := XlsxImageType.Unknown,
    alt_text := "" }

/-- `Image::new`: process the bytes, then fail with `UnknownImageType` if no
signature matched, with `ImageDimensionError` if the extracted width or height
is 0, and otherwise return the populated image. -/
def Image.new (data : List Nat) : Except XlsxError Image :=
  let image := imageInit.process_image data
  if image.image_type = XlsxImageType.Unknown then
    Except.error XlsxError.UnknownImageType
  else if image.width = 0 ∨ image.height = 0 then
    Except.error XlsxError.ImageDimensionError
  else
    Except.ok image

/-! ### Concrete image byte-stream families used by the theorems -/

/-- Big-endian 2-byte encoding of a `u16` value. -/
def u16be (n : Nat) : List Nat := [n / 256 % 256, n % 256]

/-- Big-endian 4-byte encoding of a `u32` value. -/
def u32be (n : Nat) : List Nat :=
  [n / 16777216 % 256, n / 65536 % 256, n / 256 % 256, n % 256]

/-- A well-formed PNG stream: signature, an IHDR chunk carrying
`width`/`height`, a pHYs chunk carrying `units` and the x/y pixel-per-meter
densities, and an IEND chunk. -/
def pngData (width height units xDensity yDensity : Nat) : List Nat :=
  [137, 80, 78, 71, 13, 10, 26, 10]
    ++ ([0, 0, 0, 13] ++ [73, 72, 68, 82] ++ u32be width ++ u32be height
      ++ [8, 6, 0, 0, 0] ++ [0, 0, 0, 0])
    ++ ([0, 0, 0, 9] ++ [112, 72, 89, 115] ++ u32be xDensity ++ u32be yDensity
      ++ [units] ++ [0, 0, 0, 0])
    ++ ([0, 0, 0, 0] ++ [73, 69, 78, 68])

/-- A well-formed PNG stream with no pHYs chunk: signature, IHDR, IEND. -/
def pngDataNoPhys (width height : Nat) : List Nat :=
  [137, 80, 78, 71, 13, 10, 26, 10]
    ++ ([0, 0, 0, 13] ++ [73, 72, 68, 82] ++ u32be width ++ u32be height
      ++ [8, 6, 0, 0, 0] ++ [0, 0, 0, 0])
    ++ ([0, 0, 0, 0] ++ [73, 69, 78, 68])

/-- A well-formed JPEG stream: SOI, a JFIF APP0 segment carrying `units` and
the x/y densities, an SOF0 segment carrying `height`/`width`, and an SOS
marker. -/
def jpgData (width height units xDensity yDensity : Nat) : List Nat :=
  [255, 216]
    ++ ([255, 224] ++ u16be 16 ++ [74, 70, 73, 70, 0] ++ [1, 1] ++ [units]
      ++ u16be xDensity ++ u16be yDensity ++ [0, 0])
    ++ ([255, 192] ++ u16be 11 ++ [8] ++ u16be height ++ u16be width ++ [1, 17, 0, 0])
    ++ [255, 218, 0, 0]

/-! ### Layout predicates and evaluation lemmas for the image parser

The theorems below quantify over arbitrary byte streams; the layout
predicates pin down the segment/chunk arrangement the stream must have (the
values the parser reads at each offset), leaving dimensions and densities
arbitrary.  The `pngData` / `jpgData` builders above produce concrete members
of these families. -/

/-- The DPI value `process_png` derives from a pHYs chunk with the given
units byte and pixel-per-meter density. -/
def pngDpi (units density : Nat) : ℚ :=
  if units = 1 then (density : ℚ) * (254 / 10000) else 96

/-- The DPI value the APP0 branch of `process_jpg` computes before the
`0.0 / 1.0` workaround. -/
def jpgDpi (units density : Nat) : ℚ :=
  if units = 1 then (density : ℚ)
  else if units = 2 then (density : ℚ) * (254 / 100)
  else 96

/-- The DPI value the APP0 branch of `process_jpg` reports after the
`0.0 / 1.0` workaround. -/
def jpgDpiFixed (units density : Nat) : ℚ :=
  if jpgDpi units density = 0 ∨ jpgDpi units density = 1 then 96
  else jpgDpi units density

/-- A PNG stream with signature, an IHDR chunk, one pHYs chunk and an IEND
chunk: the fields the chunk scan of `process_png` reads. -/
abbrev pngPhysLayout (data : List Nat) (width height xDensity yDensity units : Nat) : Prop :=
  pngSig data ∧
  data.length = 62 ∧
  unpack_u32_from_be_bytes data 8 = 13 ∧
  [data.getD 12 0, data.getD 13 0, data.getD 14 0, data.getD 15 0] = [73, 72, 68, 82] ∧
  unpack_u32_from_be_bytes data 16 = width ∧
  unpack_u32_from_be_bytes data 20 = height ∧
  unpack_u32_from_be_bytes data 33 = 9 ∧
  [data.getD 37 0, data.getD 38 0, data.getD 39 0, data.getD 40 0] = [112, 72, 89, 115] ∧
  unpack_u32_from_be_bytes data 41 = xDensity ∧
  unpack_u32_from_be_bytes data 45 = yDensity ∧
  data.getD 49 0 = units ∧
  [data.getD 58 0, data.getD 59 0, data.getD 60 0, data.getD 61 0] = [73, 69, 78, 68]

/-- A PNG stream with signature, an IHDR chunk and an IEND chunk but no pHYs
chunk. -/
abbrev pngNoPhysLayout (data : List Nat) (width height : Nat) : Prop :=
  pngSig data ∧
  data.length = 41 ∧
  unpack_u32_from_be_bytes data 8 = 13 ∧
  [data.getD 12 0, data.getD 13 0, data.getD 14 0, data.getD 15 0] = [73, 72, 68, 82] ∧
  unpack_u32_from_be_bytes data 16 = width ∧
  unpack_u32_from_be_bytes data 20 = height ∧
  [data.getD 37 0, data.getD 38 0, data.getD 39 0, data.getD 40 0] = [73, 69, 78, 68]

/-- A JPEG stream with SOI, a JFIF APP0 segment, an SOF0 segment and an SOS
marker: the fields the segment scan of `process_jpg` reads. -/
abbrev jpgJfifLayout (data : List Nat) (width height units xDensity yDensity : Nat) : Prop :=
  ¬ pngSig data ∧
  jpgSig data ∧
  data.length = 37 ∧
  unpack_u16_from_be_bytes data 2 = 0xFFE0 ∧
  unpack_u16_from_be_bytes data 4 = 16 ∧
  data.getD 13 0 = units ∧
  unpack_u16_from_be_bytes data 14 = xDensity ∧
  unpack_u16_from_be_bytes data 16 = yDensity ∧
  unpack_u16_from_be_bytes data 20 = 0xFFC0 ∧
  unpack_u16_from_be_bytes data 22 = 11 ∧
  unpack_u16_from_be_bytes data 25 = height ∧
  unpack_u16_from_be_bytes data 27 = width ∧
  unpack_u16_from_be_bytes data 33 = 0xFFDA

lemma png_scan_spec (data : List Nat) (width height xDensity yDensity units : Nat) (b : Bool)
    (hl : pngPhysLayout data width height xDensity yDensity units) :
    pngLoop data 63 8
        { width := 0, height := 0, width_dpi := 96, height_dpi := 96, has_default_dpi := b }
      = { width := width, height := height,
          width_dpi := pngDpi units xDensity, height_dpi := pngDpi units yDensity,
          has_default_dpi := if units = 1 then false else b } := by
  obtain ⟨-, hlen, l1, m1, hw, hh, l2, m2, hx, hy, hu, m3⟩ := hl
  simp [hlen] at m1 m2 m3 hu
  simp [pngLoop, pngDpi, hlen, l1, m1, hw, hh, l2, m2, hx, hy, hu, m3]

lemma png_new_spec (data : List Nat) (width height xDensity yDensity units : Nat)
    (hl : pngPhysLayout data width height xDensity yDensity units)
    (hw0 : width ≠ 0) (hh0 : height ≠ 0) :
    Image.new data = Except.ok
      { height := (height : ℚ), width := (width : ℚ),
        width_dpi := pngDpi units xDensity, height_dpi := pngDpi units yDensity,
        scale_width := 1, scale_height := 1,
        has_default_dpi := if units = 1 then false else true,
        x_offset := 0, y_offset := 0,
        image_type := XlsxImageType.Png, alt_text := "" } := by
  have hscan := png_scan_spec data width height xDensity yDensity units true hl
  have hlen : data.length = 62 := hl.2.1
  have e : imageInit.process_image data
      = { height := (height : ℚ), width := (width : ℚ),
          width_dpi := pngDpi units xDensity, height_dpi := pngDpi units yDensity,
          scale_width := 1, scale_height := 1,
          has_default_dpi := if units = 1 then false else true,
          x_offset := 0, y_offset := 0,
          image_type := XlsxImageType.Png, alt_text := "" } := by
    simp only [Image.process_image]
    rw [if_pos hl.1]
    simp only [Image.process_png, imageInit, hlen, Nat.reduceAdd]
    rw [hscan]
  simp only [Image.new]
  rw [e]
  simp [Nat.cast_eq_zero, hw0, hh0]

lemma png_scan_spec_nophys (data : List Nat) (width height : Nat) (b : Bool)
    (hl : pngNoPhysLayout data width height) :
    pngLoop data 42 8
        { width := 0, height := 0, width_dpi := 96, height_dpi := 96, has_default_dpi := b }
      = { width := width, height := height, width_dpi := 96, height_dpi := 96,
          has_default_dpi := b } := by
  obtain ⟨-, hlen, l1, m1, hw, hh, m3⟩ := hl
  simp [hlen] at m1 m3
  simp [pngLoop, hlen, l1, m1, hw, hh, m3]

lemma png_new_spec_nophys (data : List Nat) (width height : Nat)
    (hl : pngNoPhysLayout data width height)
    (hw0 : width ≠ 0) (hh0 : height ≠ 0) :
    Image.new data = Except.ok
      { height := (height : ℚ), width := (width : ℚ),
        width_dpi := 96, height_dpi := 96,
        scale_width := 1, scale_height := 1, has_default_dpi := true,
        x_offset := 0, y_offset := 0,
        image_type := XlsxImageType.Png, alt_text := "" } := by
  have hscan := png_scan_spec_nophys data width height true hl
  have hlen : data.length = 41 := hl.2.1
  have e : imageInit.process_image data
      = { height := (height : ℚ), width := (width : ℚ),
          width_dpi := 96, height_dpi := 96,
          scale_width := 1, scale_height := 1, has_default_dpi := true,
          x_offset := 0, y_offset := 0,
          image_type := XlsxImageType.Png, alt_text := "" } := by
    simp only [Image.process_image]
    rw [if_pos hl.1]
    simp only [Image.process_png, imageInit, hlen, Nat.reduceAdd]
    rw [hscan]
  simp only [Image.new]
  rw [e]
  simp [Nat.cast_eq_zero, hw0, hh0]

lemma jpg_scan_spec (data : List Nat) (width height units xDensity yDensity : Nat) (b : Bool)
    (hl : jpgJfifLayout data width height units xDensity yDensity) :
    jpgLoop data 38 2
        { width := 0, height := 0, width_dpi := 96, height_dpi := 96, has_default_dpi := b }
      = { width := width, height := height,
          width_dpi := jpgDpiFixed units xDensity,
          height_dpi := jpgDpiFixed units yDensity,
          has_default_dpi := if units = 2 then false else b } := by
  obtain ⟨-, -, hlen, m1, l1, hu, hx, hy, m2, l2, hh, hw, m3⟩ := hl
  have cE0 : ¬((0xFFE0 : Nat) &&& 0xFFF0 = 0xFFC0) := by decide
  have cC0 : ((0xFFC0 : Nat) &&& 0xFFF0 = 0xFFC0) := by decide
  have cDA : ¬((0xFFDA : Nat) &&& 0xFFF0 = 0xFFC0) := by decide
  simp [hlen] at hu
  simp [jpgLoop, jpgDpiFixed, jpgDpi, hlen, m1, l1, hu, hx, hy, m2, l2, hh, hw, m3,
    cE0, cC0, cDA]

lemma jpg_new_spec (data : List Nat) (width height units xDensity yDensity : Nat)
    (hl : jpgJfifLayout data width height units xDensity yDensity)
    (hw0 : width ≠ 0) (hh0 : height ≠ 0) :
    Image.new data = Except.ok
      { height := (height : ℚ), width := (width : ℚ),
        width_dpi := jpgDpiFixed units xDensity,
        height_dpi := jpgDpiFixed units yDensity,
        scale_width := 1, scale_height := 1,
        has_default_dpi := if units = 2 then false else true,
        x_offset := 0, y_offset := 0,
        image_type := XlsxImageType.Jpg, alt_text := "" } := by
  have hscan := jpg_scan_spec data width height units xDensity yDensity true hl
  have hlen : data.length = 37 := hl.2.2.1
  have e : imageInit.process_image data
      = { height := (height : ℚ), width := (width : ℚ),
          width_dpi := jpgDpiFixed units xDensity,
          height_dpi := jpgDpiFixed units yDensity,
          scale_width := 1, scale_height := 1,
          has_default_dpi := if units = 2 then false else true,
          x_offset := 0, y_offset := 0,
          image_type := XlsxImageType.Jpg, alt_text := "" } := by
    simp only [Image.process_image]
    rw [if_neg hl.1, if_pos hl.2.1]
    simp only [Image.process_jpg, imageInit, hlen, Nat.reduceAdd]
    rw [hscan]
  simp only [Image.new]
  rw [e]
  simp [Nat.cast_eq_zero, hw0, hh0]

/-! ### Theorems about the image parser -/

/-- C3: `Image::new` returns `UnknownImageType` when the leading bytes match
none of the PNG/JPEG/BMP/GIF signatures, `ImageDimensionError` when a format
is recognized but the extracted width or height is 0, and otherwise `Ok` with
the extracted image data. -/
theorem image_new_classification (data : List Nat) (hlen : 4 ≤ data.length) :
    (¬ pngSig data ∧ ¬ jpgSig data ∧ ¬ bmpSig data ∧ ¬ gifSig data →
      Image.new data = Except.error XlsxError.UnknownImageType) ∧
    ((pngSig data ∨ jpgSig data ∨ bmpSig data ∨ gifSig data) →
      ((imageInit.process_image data).width = 0 ∨ (imageInit.process_image data).height = 0 →
        Image.new data = Except.error XlsxError.ImageDimensionError) ∧
      ((imageInit.process_image data).width ≠ 0 → (imageInit.process_image data).height ≠ 0 →
        Image.new data = Except.ok (imageInit.process_image data))) := by
  constructor
  · rintro ⟨h1, h2, h3, h4⟩
    have hproc : imageInit.process_image data = imageInit := by
      simp only [Image.process_image]
      rw [if_neg h1, if_neg h2, if_neg h3, if_neg h4]
    simp only [Image.new]
    rw [hproc]
    simp [imageInit]
  · intro hrec
    have htype : ¬ (imageInit.process_image data).image_type = XlsxImageType.Unknown := by
      simp only [Image.process_image]
      split_ifs with hp hj hb hg
      · simp [Image.process_png]
      · simp [Image.process_jpg]
      · simp [Image.process_bmp]
      · simp [Image.process_gif]
      · rcases hrec with h | h | h | h <;> contradiction
    constructor
    · intro hdim
      simp only [Image.new]
      rw [if_neg htype, if_pos hdim]
    · intro hw hh
      simp only [Image.new]
      rw [if_neg htype, if_neg (not_or.mpr ⟨hw, hh⟩)]

/-- Witness for C3 at a concrete stream matching no signature. -/
theorem image_new_classification_witness :
    Image.new [0, 0, 0, 0] = Except.error XlsxError.UnknownImageType :=
  (image_new_classification [0, 0, 0, 0] (by decide)).1 (by decide)

/-- C4: for BMP inputs (magic `BM`) and GIF inputs (magic `GIF8`),
`Image::new` reports `width_dpi = height_dpi = 96.0` regardless of the rest of
the header. -/
theorem image_bmp_gif_dpi_default (data : List Nat) :
    (bmpSig data → 26 ≤ data.length →
      ∀ img, Image.new data = Except.ok img → img.width_dpi = 96 ∧ img.height_dpi = 96) ∧
    (gifSig data → 10 ≤ data.length →
      ∀ img, Image.new data = Except.ok img → img.width_dpi = 96 ∧ img.height_dpi = 96) := by
  constructor
  · intro hb hlen img hok
    have hb' : data[0]?.getD 0 = 66 ∧ data[1]?.getD 0 = 77 := by simpa using hb
    have hnp : ¬ pngSig data := by simp [pngSig, hb'.2]
    have hnj : ¬ jpgSig data := by simp [jpgSig, unpack_u16_from_be_bytes, hb'.1, hb'.2]
    have hproc : imageInit.process_image data = imageInit.process_bmp data := by
      simp only [Image.process_image]
      rw [if_neg hnp, if_neg hnj, if_pos hb]
    simp only [Image.new] at hok
    rw [hproc] at hok
    split_ifs at hok with h1 h2
    · simp only [Except.ok.injEq] at hok
      subst hok
      exact ⟨rfl, rfl⟩
  · intro hg hlen img hok
    have hg' : data[0]?.getD 0 = 71 ∧ data[1]?.getD 0 = 73 ∧ data[2]?.getD 0 = 70 ∧
        data[3]?.getD 0 = 56 := by simpa using hg
    have hnp : ¬ pngSig data := by simp [pngSig, hg'.2.1]
    have hnj : ¬ jpgSig data := by
      simp [jpgSig, unpack_u16_from_be_bytes, hg'.1, hg'.2.1]
    have hnb : ¬ bmpSig data := by simp [bmpSig, hg'.1]
    have hproc : imageInit.process_image data = imageInit.process_gif data := by
      simp only [Image.process_image]
      rw [if_neg hnp, if_neg hnj, if_neg hnb, if_pos hg]
    simp only [Image.new] at hok
    rw [hproc] at hok
    split_ifs at hok with h1 h2
    · simp only [Except.ok.injEq] at hok
      subst hok
      exact ⟨rfl, rfl⟩

/-- A concrete 26-byte BMP stream (magic `BM`, 32×32). -/
def bmpDataW : List Nat :=
  [66, 77] ++ List.replicate 16 0 ++ [32, 0, 0, 0, 32, 0, 0, 0]

/-- The image `Image::new` extracts from `bmpDataW`. -/
def bmpImgW : Image := imageInit.process_image bmpDataW

/-- Witness for C4 at the concrete BMP stream `bmpDataW`. -/
theorem image_bmp_gif_dpi_default_witness :
    bmpImgW.width_dpi = 96 ∧ bmpImgW.height_dpi = 96 :=
  (image_bmp_gif_dpi_default bmpDataW).1 (by decide) (by decide) bmpImgW (by rfl)

/-- C5: a PNG with a pHYs chunk with units byte 1 and pixel-per-meter
densities `dx`, `dy` reports `width_dpi = dx * 0.0254` and
`height_dpi = dy * 0.0254`; a PNG without a pHYs chunk keeps the default
96.0 DPI. -/
theorem image_png_phys_dpi (data : List Nat) (width height xDensity yDensity : Nat) :
    (pngPhysLayout data width height xDensity yDensity 1 → width ≠ 0 → height ≠ 0 →
      Image.new data = Except.ok
        { height := (height : ℚ), width := (width : ℚ),
          width_dpi := (xDensity : ℚ) * (254 / 10000),
          height_dpi := (yDensity : ℚ) * (254 / 10000),
          scale_width := 1, scale_height := 1, has_default_dpi := false,
          x_offset := 0, y_offset := 0,
          image_type := XlsxImageType.Png, alt_text := "" }) ∧
    (pngNoPhysLayout data width height → width ≠ 0 → height ≠ 0 →
      Image.new data = Except.ok
        { height := (height : ℚ), width := (width : ℚ),
          width_dpi := 96, height_dpi := 96,
          scale_width := 1, scale_height := 1, has_default_dpi := true,
          x_offset := 0, y_offset := 0,
          image_type := XlsxImageType.Png, alt_text := "" }) := by
  constructor
  · intro hl hw0 hh0
    have h := png_new_spec data width height xDensity yDensity 1 hl hw0 hh0
    simpa [pngDpi] using h
  · intro hl hw0 hh0
    exact png_new_spec_nophys data width height hl hw0 hh0

/-- Witness for C5: a 64×64 PNG with a pHYs chunk encoding 2835
pixels/meter reports DPI `2835 * 0.0254` (≈ 72.0). -/
theorem image_png_phys_dpi_witness :
    Image.new (pngData 64 64 1 2835 2835) = Except.ok
      { height := ((64 : Nat) : ℚ), width := ((64 : Nat) : ℚ),
        width_dpi := ((2835 : Nat) : ℚ) * (254 / 10000),
        height_dpi := ((2835 : Nat) : ℚ) * (254 / 10000),
        scale_width := 1, scale_height := 1, has_default_dpi := false,
        x_offset := 0, y_offset := 0,
        image_type := XlsxImageType.Png, alt_text := "" } :=
  (image_png_phys_dpi (pngData 64 64 1 2835 2835) 64 64 2835 2835).1
    (by decide) (by decide) (by decide)

/-- A concrete JPEG whose APP0 segment has units byte 1 and x/y densities 0:
the input refuting C6 as stated. -/
def jpgZeroDensityData : List Nat := jpgData 11 16 1 0 0

/-- Counterexample to C6 as stated: for this JPEG with units = 1 and
densities `dx = dy = 0`, `Image::new` does not report
`width_dpi = dx = 0` / `height_dpi = dy = 0` (it reports 96.0). -/
theorem image_jpg_unit_density_cex :
    ¬ (∀ img, Image.new jpgZeroDensityData = Except.ok img →
        img.width_dpi = 0 ∧ img.height_dpi = 0) := by
  intro hcl
  have h := jpg_new_spec jpgZeroDensityData 11 16 1 0 0 (by decide) (by decide) (by decide)
  have h2 := hcl _ h
  simp [jpgDpiFixed, jpgDpi] at h2

/-- C6 (amended): a JPEG whose APP0 segment has units byte 1 and densities
`dx`, `dy` reports `width_dpi = dx` and `height_dpi = dy`, except that a
computed value equal to 0.0 or 1.0 is replaced by 96.0. -/
theorem image_jpg_unit_density_amended (data : List Nat)
    (width height xDensity yDensity : Nat)
    (hl : jpgJfifLayout data width height 1 xDensity yDensity)
    (hw0 : width ≠ 0) (hh0 : height ≠ 0) :
    Image.new data = Except.ok
      { height := (height : ℚ), width := (width : ℚ),
        width_dpi := if xDensity = 0 ∨ xDensity = 1 then (96 : ℚ) else (xDensity : ℚ),
        height_dpi := if yDensity = 0 ∨ yDensity = 1 then (96 : ℚ) else (yDensity : ℚ),
        scale_width := 1, scale_height := 1, has_default_dpi := true,
        x_offset := 0, y_offset := 0,
        image_type := XlsxImageType.Jpg, alt_text := "" } := by
  have h := jpg_new_spec data width height 1 xDensity yDensity hl hw0 hh0
  simpa [jpgDpiFixed, jpgDpi, Nat.cast_eq_zero, Nat.cast_eq_one] using h

/-- Witness for the amended C6: a JPEG APP0 segment with units 1 and density
96/96 reports DPI 96.0/96.0. -/
theorem image_jpg_unit_density_amended_witness :
    Image.new (jpgData 64 64 1 96 96) = Except.ok
      { height := ((64 : Nat) : ℚ), width := ((64 : Nat) : ℚ),
        width_dpi := if (96 : Nat) = 0 ∨ (96 : Nat) = 1 then (96 : ℚ) else ((96 : Nat) : ℚ),
        height_dpi := if (96 : Nat) = 0 ∨ (96 : Nat) = 1 then (96 : ℚ) else ((96 : Nat) : ℚ),
        scale_width := 1, scale_height := 1, has_default_dpi := true,
        x_offset := 0, y_offset := 0,
        image_type := XlsxImageType.Jpg, alt_text := "" } :=
  image_jpg_unit_density_amended (jpgData 64 64 1 96 96) 64 64 96 96
    (by decide) (by decide) (by decide)

/-- C10: for a JPEG whose APP0 segment yields a computed `width_dpi` (or
`height_dpi`) equal to 0.0 or 1.0, `Image::new` replaces that value with
96.0 — each of the two values independently. -/
theorem image_jpg_degenerate_dpi (data : List Nat)
    (width height units xDensity yDensity : Nat)
    (hl : jpgJfifLayout data width height units xDensity yDensity)
    (hw0 : width ≠ 0) (hh0 : height ≠ 0) :
    (jpgDpi units xDensity = 0 ∨ jpgDpi units xDensity = 1 →
      ∀ img, Image.new data = Except.ok img → img.width_dpi = 96) ∧
    (jpgDpi units yDensity = 0 ∨ jpgDpi units yDensity = 1 →
      ∀ img, Image.new data = Except.ok img → img.height_dpi = 96) := by
  have h := jpg_new_spec data width height units xDensity yDensity hl hw0 hh0
  constructor
  · intro hdx img hok
    rw [h] at hok
    simp only [Except.ok.injEq] at hok
    subst hok
    simp [jpgDpiFixed, hdx]
  · intro hdy img hok
    rw [h] at hok
    simp only [Except.ok.injEq] at hok
    subst hok
    simp [jpgDpiFixed, hdy]

/-- The image `Image::new` extracts from a JPEG with units 1 and densities
0/150: only the width density is degenerate. -/
def jpgDegImgW : Image :=
  { height := ((5 : Nat) : ℚ), width := ((5 : Nat) : ℚ),
    width_dpi := jpgDpiFixed 1 0, height_dpi := jpgDpiFixed 1 150,
    scale_width := 1, scale_height := 1,
    has_default_dpi := if (1 : Nat) = 2 then false else true,
    x_offset := 0, y_offset := 0,
    image_type := XlsxImageType.Jpg, alt_text := "" }

/-- Witness for C10: a JPEG with units 1 and densities 0/150 has its
computed width DPI of 0.0 replaced with 96.0 (the height density 150 is not
degenerate). -/
theorem image_jpg_degenerate_dpi_witness : jpgDegImgW.width_dpi = 96 :=
  (image_jpg_degenerate_dpi (jpgData 5 5 1 0 150) 5 5 1 0 150
    (by decide) (by decide) (by decide)).1
    (Or.inl (by simp [jpgDpi]))
    jpgDegImgW
    (jpg_new_spec (jpgData 5 5 1 0 150) 5 5 1 0 150 (by decide) (by decide) (by decide))

/-! ## `src/serializer.rs` -/

/-- `CustomSerializeField` from `serializer.rs`.  `Format` values are passed
through opaquely by the code the claims are about, so the embedding is
polymorphic in the format type `F`; the `f64` column width is a `ℚ`. -/
structure CustomSerializeField (F : Type) where
  field_name : String
  header_name : String
  header_format : Option F
  column_format : Option F
  value_format : Option F
  skip : Bool
  row : Nat
  col : Nat
  width : Option ℚ
  pixel_width : Option Nat
deriving DecidableEq

/-- `SerializerState` from `serializer.rs`.  The two nested `HashMap`s are
modelled as association lists with first-match lookup. -/
structure SerializerState (F : Type) where
  structs : List (String × List (String × CustomSerializeField F))
  current_struct : String
  current_field : String
  current_row : Nat
deriving DecidableEq

/-- In-place update of the value at a key, the effect of mutating through
`HashMap::get_mut`. -/
def updateValue {β : Type} (m : List (String × β)) (key : String) (v : β) :
    List (String × β) :=
  m.map fun kv => if kv.1 = key then (kv.1, v) else kv

/-- `SerializerState::current_state`: look up the current struct and field;
if either is missing return `Err(())` without touching the state, otherwise
return the field's `(row, col, value_format)` and increment the field's
stored row by 1 for the next write. -/
def SerializerState.current_state {F : Type} (s : SerializerState F) :
    Except Unit (Nat × Nat × Option F) × SerializerState F :=
  match List.lookup s.current_struct s.structs with
  | none => (Except.error (), s)
  | some fields =>
    match List.lookup s.current_field fields with
    | none => (Except.error (), s)
    | some field =>
      (Except.ok (field.row, field.col, field.value_format),
       { s with structs := updateValue s.structs s.current_struct
                    (updateValue fields s.current_field
                      { field with row := field.row + 1 }) })

/-- The scalar cell values the serializer writes: every numeric type funnels
into Excel's number type, `char` becomes a one-character string. -/
inductive CellData where
  | number (value : ℚ)
  | string (value : String)
  | boolean (value : Bool)
deriving DecidableEq

/-- Modelled from the spec: the worksheet, of which the serialization bridge
uses only the cell write path and the per-struct serializer cursor state
(`worksheet.rs` itself is outside the sources at hand).  Writes are logged as
`(row, col, value, format)` in call order. -/
structure Worksheet (F : Type) where
  cells : List (Nat × Nat × CellData × Option F)
  serializer_state : SerializerState F
deriving DecidableEq

/-- Modelled from the spec: `Worksheet::serialize_to_worksheet_cell` — the
write path the scalar `serialize_*` methods call.  Per the spec, writing to an
unregistered struct/field (`current_state` returns `Err`) is dropped/ignored
rather than erroring; on `Ok` the value is written at the returned `(row,
col)` with the field's value format. -/
def Worksheet.serialize_to_worksheet_cell {F : Type} (self : Worksheet F)
    (data : CellData) : Worksheet F × Except XlsxError Unit :=
  match SerializerState.current_state self.serializer_state with
  | (Except.error _, state) => ({ self with serializer_state := state }, Except.ok ())
  | (Except.ok (row, col, value_format), state) =>
      ({ self with serializer_state := state,
                   cells := self.cells ++ [(row, col, data, value_format)] },
       Except.ok ())

/-- A serde value presented to the `Serializer` impl for `&mut Worksheet`:
one constructor per family of `serialize_*` methods the claims mention. -/
inductive SerdeData where
  | boolean (b : Bool)
  | int (n : ℤ)
  | float (q : ℚ)
  | str (s : String)
  | char (c : Char)
  | bytes (bs : List Nat)
  | someOf (d : SerdeData)
  | noneVal
  | unit
  | unitStruct (name : String)
  | unitVariant (name variant : String)

/-- The scalar `serialize_*` dispatch of `impl Serializer for &mut Worksheet`:
numbers, strings, bools and chars go to `serialize_to_worksheet_cell`;
`serialize_some` unwraps and serializes the inner value; `serialize_none`,
`serialize_unit` and `serialize_unit_struct` write an empty string
(`serialize_str("")`); byte arrays and unit variants are ignored. -/
def Worksheet.serializeData {F : Type} (self : Worksheet F) :
    SerdeData → Worksheet F × Except XlsxError Unit
  | SerdeData.boolean b => self.serialize_to_worksheet_cell (CellData.boolean b)
  | SerdeData.int n => self.serialize_to_worksheet_cell (CellData.number n)
  | SerdeData.float q => self.serialize_to_worksheet_cell (CellData.number q)
  | SerdeData.str s => self.serialize_to_worksheet_cell (CellData.string s)
  | SerdeData.char c => self.serialize_to_worksheet_cell (CellData.string c.toString)
  | SerdeData.bytes _ => (self, Except.ok ())
  | SerdeData.someOf d => self.serializeData d
  | SerdeData.noneVal => self.serialize_to_worksheet_cell (CellData.string "")
  | SerdeData.unit => self.serialize_to_worksheet_cell (CellData.string "")
  | SerdeData.unitStruct _ => self.serialize_to_worksheet_cell (CellData.string "")
  | SerdeData.unitVariant _ _ => (self, Except.ok ())

/-- The scalar cell a `SerdeData` value writes, if any: the specification-side
classifier used to state the row-advance theorem for any scalar value. -/
def SerdeData.scalarView : SerdeData → Option CellData
  | SerdeData.boolean b => some (CellData.boolean b)
  | SerdeData.int n => some (CellData.number n)
  | SerdeData.float q => some (CellData.number q)
  | SerdeData.str s => some (CellData.string s)
  | SerdeData.char c => some (CellData.string c.toString)
  | _ => none

/-- `SerializeStruct::serialize_field` for `&mut Worksheet`: store the field
name in the cursor state, then serialize the value. -/
def Worksheet.serialize_field {F : Type} (self : Worksheet F) (key : String)
    (value : SerdeData) : Worksheet F × Except XlsxError Unit :=
  let self := { self with serializer_state :=
    { self.serializer_state with current_field := key } }
  self.serializeData value

/-- One `serialize(record)` call for a struct record: `serialize_struct`
stores the struct name in the cursor state, then serde drives one
`serialize_field` call per field in declaration order (stopping at the first
error, as the derived serializer does with `?`). -/
def Worksheet.serializeStructRecord {F : Type} (self : Worksheet F) (name : String)
    (record : List (String × SerdeData)) : Worksheet F × Except XlsxError Unit :=
  let self := { self with serializer_state :=
    { self.serializer_state with current_struct := name } }
  record.foldl
    (fun acc kv =>
      match acc with
      | (ws, Except.ok _) => ws.serialize_field kv.1 kv.2
      | e => e)
    (self, Except.ok ())

/-- `SerializeSeq::serialize_element` for `&mut Worksheet`: serialize the
element, then increment `current_row`. -/
def Worksheet.serialize_element {F : Type} (self : Worksheet F) (name : String)
    (record : List (String × SerdeData)) : Worksheet F × Except XlsxError Unit :=
  let ret := self.serializeStructRecord name record
  ({ ret.1 with serializer_state :=
    { ret.1.serializer_state with current_row := ret.1.serializer_state.current_row + 1 } },
   ret.2)

/-- `n` successive `serialize(record)` calls for the same struct record. -/
def Worksheet.serializeN {F : Type} (self : Worksheet F) (name : String)
    (record : List (String × SerdeData)) : Nat → Worksheet F
  | 0 => self
  | n + 1 => Worksheet.serializeN (self.serializeStructRecord name record).1 name record n

/-- Serializing a sequence of struct records (`serialize(&vec)`): one
`serialize_element` per record. -/
def Worksheet.serializeSeq {F : Type} (self : Worksheet F) (name : String)
    (records : List (List (String × SerdeData))) : Worksheet F :=
  records.foldl (fun ws r => (ws.serialize_element name r).1) self

/-! ### Lemmas about the serializer state -/

lemma lookup_cons {β : Type} (key a : String) (b : β) (t : List (String × β)) :
    List.lookup key ((a, b) :: t) = if key = a then some b else List.lookup key t := by
  by_cases h : key = a
  · subst h
    simp [List.lookup]
  · have hb : (key == a) = false := beq_eq_false_iff_ne.mpr h
    simp [List.lookup, hb, h]

lemma lookup_updateValue_self {β : Type} (m : List (String × β)) (key : String) (v w : β)
    (h : List.lookup key m = some w) :
    List.lookup key (updateValue m key v) = some v := by
  induction m with
  | nil => simp [List.lookup] at h
  | cons kv t ih =>
    obtain ⟨a, b⟩ := kv
    rw [lookup_cons] at h
    by_cases hk : key = a
    · have : (if (a, b).1 = key then ((a, b).1, v) else (a, b)) = (a, v) := by
        simp [hk.symm]
      simp only [updateValue, List.map, this]
      rw [lookup_cons, if_pos hk]
    · have hka : ¬ a = key := fun hh => hk hh.symm
      have : (if (a, b).1 = key then ((a, b).1, v) else (a, b)) = (a, b) := by
        simp [hka]
      simp only [updateValue, List.map, this]
      rw [lookup_cons, if_neg hk]
      rw [if_neg hk] at h
      exact ih h

lemma serializeData_scalar {F : Type} (ws : Worksheet F) (v : SerdeData) (cd : CellData)
    (hv : v.scalarView = some cd) :
    ws.serializeData v = ws.serialize_to_worksheet_cell cd := by
  cases v <;> simp_all [SerdeData.scalarView, Worksheet.serializeData]

lemma serializeStructRecord_single {F : Type} (ws : Worksheet F) (name fname : String)
    (v : SerdeData) (cd : CellData)
    (fields : List (String × CustomSerializeField F)) (field : CustomSerializeField F)
    (hv : v.scalarView = some cd)
    (hs : List.lookup name ws.serializer_state.structs = some fields)
    (hf : List.lookup fname fields = some field) :
    ws.serializeStructRecord name [(fname, v)] =
      ({ cells := ws.cells ++ [(field.row, field.col, cd, field.value_format)],
         serializer_state :=
          { structs := updateValue ws.serializer_state.structs name
              (updateValue fields fname { field with row := field.row + 1 }),
            current_struct := name, current_field := fname,
            current_row := ws.serializer_state.current_row } },
       Except.ok ()) := by
  simp only [Worksheet.serializeStructRecord, List.foldl, Worksheet.serialize_field]
  rw [serializeData_scalar _ _ _ hv]
  simp [Worksheet.serialize_to_worksheet_cell, SerializerState.current_state, hs, hf]

/-! ### Theorems about the serialization bridge -/

/-- C1: when the current struct type or field has no entry in the
`SerializerState`, `current_state` returns `Err` and the serialize call
writes nothing to the worksheet and completes without error — the data is
silently dropped. -/
theorem serializer_unregistered_dropped {F : Type} (ws : Worksheet F) (d : CellData)
    (h : List.lookup ws.serializer_state.current_struct ws.serializer_state.structs = none
      ∨ ∃ fields, List.lookup ws.serializer_state.current_struct ws.serializer_state.structs
          = some fields ∧ List.lookup ws.serializer_state.current_field fields = none) :
    (SerializerState.current_state ws.serializer_state).1 = Except.error () ∧
    (ws.serialize_to_worksheet_cell d).1 = ws ∧
    (ws.serialize_to_worksheet_cell d).2 = Except.ok () := by
  have hcs : SerializerState.current_state ws.serializer_state
      = (Except.error (), ws.serializer_state) := by
    rcases h with h | ⟨fields, h1, h2⟩
    · simp [SerializerState.current_state, h]
    · simp [SerializerState.current_state, h1, h2]
  refine ⟨by rw [hcs], ?_, ?_⟩ <;>
    simp [Worksheet.serialize_to_worksheet_cell, hcs]

/-- A worksheet with an empty serializer state, used as the C1 witness. -/
def wsUnregistered : Worksheet Unit :=
  { cells := [],
    serializer_state :=
      { structs := [], current_struct := "T", current_field := "g", current_row := 0 } }

/-- Witness for C1: serializing a value into a worksheet whose serializer
state has no structs registered writes nothing and reports no error. -/
theorem serializer_unregistered_dropped_witness :
    (SerializerState.current_state wsUnregistered.serializer_state).1 = Except.error () ∧
    (wsUnregistered.serialize_to_worksheet_cell (CellData.string "x")).1 = wsUnregistered ∧
    (wsUnregistered.serialize_to_worksheet_cell (CellData.string "x")).2 = Except.ok () :=
  serializer_unregistered_dropped wsUnregistered (CellData.string "x") (Or.inl rfl)

lemma serializeN_cells {F : Type} (name fname : String) (v : SerdeData) (cd : CellData)
    (hv : v.scalarView = some cd) :
    ∀ (n : Nat) (ws : Worksheet F) (fields : List (String × CustomSerializeField F))
      (field : CustomSerializeField F),
      List.lookup name ws.serializer_state.structs = some fields →
      List.lookup fname fields = some field →
      (ws.serializeN name [(fname, v)] n).cells
        = ws.cells ++ (List.range n).map
            (fun i => (field.row + i, field.col, cd, field.value_format)) := by
  intro n
  induction n with
  | zero => intro ws fields field hs hf; simp [Worksheet.serializeN]
  | succ n ih =>
    intro ws fields field hs hf
    have hstep := serializeStructRecord_single ws name fname v cd fields field hv hs hf
    have hs' : List.lookup name
        ((ws.serializeStructRecord name [(fname, v)]).1).serializer_state.structs
        = some (updateValue fields fname { field with row := field.row + 1 }) := by
      rw [hstep]
      exact lookup_updateValue_self _ _ _ _ hs
    have hf' : List.lookup fname (updateValue fields fname { field with row := field.row + 1 })
        = some { field with row := field.row + 1 } :=
      lookup_updateValue_self _ _ _ _ hf
    have hrec := ih ((ws.serializeStructRecord name [(fname, v)]).1) _ _ hs' hf'
    calc (ws.serializeN name [(fname, v)] (n + 1)).cells
        = ((ws.serializeStructRecord name [(fname, v)]).1.serializeN name [(fname, v)] n).cells
          := rfl
      _ = (ws.serializeStructRecord name [(fname, v)]).1.cells
            ++ (List.range n).map (fun i =>
              (field.row + 1 + i, field.col, cd, field.value_format)) := by
          rw [hrec]
      _ = ws.cells ++ (List.range (n + 1)).map
            (fun i => (field.row + i, field.col, cd, field.value_format)) := by
          rw [hstep]
          simp [List.range_succ_eq_map, List.map_map, Function.comp]
          intro i _
          omega

lemma serializeSeq_cells {F : Type} (name fname : String) (v : SerdeData) (cd : CellData)
    (hv : v.scalarView = some cd) :
    ∀ (n : Nat) (ws : Worksheet F) (fields : List (String × CustomSerializeField F))
      (field : CustomSerializeField F),
      List.lookup name ws.serializer_state.structs = some fields →
      List.lookup fname fields = some field →
      (ws.serializeSeq name (List.replicate n [(fname, v)])).cells
        = ws.cells ++ (List.range n).map
            (fun i => (field.row + i, field.col, cd, field.value_format)) := by
  intro n
  induction n with
  | zero => intro ws fields field hs hf; simp [Worksheet.serializeSeq]
  | succ n ih =>
    intro ws fields field hs hf
    have hstep := serializeStructRecord_single ws name fname v cd fields field hv hs hf
    have hs' : List.lookup name
        ((ws.serialize_element name [(fname, v)]).1).serializer_state.structs
        = some (updateValue fields fname { field with row := field.row + 1 }) := by
      simp only [Worksheet.serialize_element, hstep]
      exact lookup_updateValue_self _ _ _ _ hs
    have hf' : List.lookup fname (updateValue fields fname { field with row := field.row + 1 })
        = some { field with row := field.row + 1 } :=
      lookup_updateValue_self _ _ _ _ hf
    have hrec := ih ((ws.serialize_element name [(fname, v)]).1) _ _ hs' hf'
    have hcells : ((ws.serialize_element name [(fname, v)]).1).cells
        = ws.cells ++ [(field.row, field.col, cd, field.value_format)] := by
      simp only [Worksheet.serialize_element, hstep]
    calc (ws.serializeSeq name (List.replicate (n + 1) [(fname, v)])).cells
        = ((ws.serialize_element name [(fname, v)]).1.serializeSeq name
            (List.replicate n [(fname, v)])).cells := by
          rw [List.replicate_succ]
          rfl
      _ = (ws.serialize_element name [(fname, v)]).1.cells
            ++ (List.range n).map (fun i =>
              (field.row + 1 + i, field.col, cd, field.value_format)) := by
          rw [hrec]
      _ = ws.cells ++ (List.range (n + 1)).map
            (fun i => (field.row + i, field.col, cd, field.value_format)) := by
          rw [hcells]
          simp [List.range_succ_eq_map, List.map_map, Function.comp]
          intro i _
          omega

/-- C2: for a registered struct type and field, each `current_state` call
returns the field's current `(row, col, value_format)` and increments the
stored row by exactly 1; hence `n` successive `serialize(record)` calls write
`n` consecutive rows in the field's fixed column, and serializing a sequence
of `n` such records likewise writes one row per element. -/
theorem serializer_consecutive_rows (F : Type) :
    (∀ (s : SerializerState F) (fields : List (String × CustomSerializeField F))
        (field : CustomSerializeField F),
      List.lookup s.current_struct s.structs = some fields →
      List.lookup s.current_field fields = some field →
      (SerializerState.current_state s).1
          = Except.ok (field.row, field.col, field.value_format) ∧
      List.lookup s.current_struct (SerializerState.current_state s).2.structs
          = some (updateValue fields s.current_field { field with row := field.row + 1 }) ∧
      List.lookup s.current_field (updateValue fields s.current_field
          { field with row := field.row + 1 }) = some { field with row := field.row + 1 }) ∧
    (∀ (ws : Worksheet F) (name fname : String) (v : SerdeData) (cd : CellData)
        (fields : List (String × CustomSerializeField F)) (field : CustomSerializeField F)
        (n : Nat),
      v.scalarView = some cd →
      List.lookup name ws.serializer_state.structs = some fields →
      List.lookup fname fields = some field →
      (ws.serializeN name [(fname, v)] n).cells
        = ws.cells ++ (List.range n).map
            (fun i => (field.row + i, field.col, cd, field.value_format)) ∧
      (ws.serializeSeq name (List.replicate n [(fname, v)])).cells
        = ws.cells ++ (List.range n).map
            (fun i => (field.row + i, field.col, cd, field.value_format))) := by
  constructor
  · intro s fields field hs hf
    refine ⟨?_, ?_, lookup_updateValue_self _ _ _ _ hf⟩ <;>
      simp [SerializerState.current_state, hs, hf, lookup_updateValue_self _ _ _ _ hs]
  · intro ws name fname v cd fields field n hv hs hf
    exact ⟨serializeN_cells name fname v cd hv n ws fields field hs hf,
      serializeSeq_cells name fname v cd hv n ws fields field hs hf⟩

/-- A registered field at row 5, column 2, used by the C2 and C7 witnesses. -/
def fieldW : CustomSerializeField Unit :=
  { field_name := "f", header_name := "f", header_format := none, column_format := none,
    value_format := none, skip := false, row := 5, col := 2, width := none,
    pixel_width := none }

/-- A worksheet with struct `"S"` and field `"f"` registered, used by the C2
witness. -/
def wsRegistered : Worksheet Unit :=
  { cells := [],
    serializer_state :=
      { structs := [("S", [("f", fieldW)])], current_struct := "",
        current_field := "", current_row := 0 } }

/-- Witness for C2: two successive `serialize` calls of a one-field record
write rows 5 and 6 in column 2. -/
theorem serializer_consecutive_rows_witness :
    (wsRegistered.serializeN "S" [("f", SerdeData.str "x")] 2).cells
      = wsRegistered.cells ++ (List.range 2).map
          (fun i => (fieldW.row + i, fieldW.col, CellData.string "x", fieldW.value_format)) :=
  (((serializer_consecutive_rows Unit).2 wsRegistered "S" "f" (SerdeData.str "x")
    (CellData.string "x") [("f", fieldW)] fieldW 2 rfl rfl rfl).1)

/-- C7: a `None`, unit or unit-struct field value writes an empty string to
the destination cell — a formatted blank rather than a skipped cell — and a
`Some(v)` value unwraps to a serialization of the inner value `v`. -/
theorem serializer_none_writes_blank {F : Type} (ws : Worksheet F)
    (fields : List (String × CustomSerializeField F)) (field : CustomSerializeField F)
    (hs : List.lookup ws.serializer_state.current_struct ws.serializer_state.structs
        = some fields)
    (hf : List.lookup ws.serializer_state.current_field fields = some field) :
    ((ws.serializeData SerdeData.noneVal).1.cells
        = ws.cells ++ [(field.row, field.col, CellData.string "", field.value_format)] ∧
      (ws.serializeData SerdeData.noneVal).2 = Except.ok ()) ∧
    (∀ sname, ws.serializeData (SerdeData.unitStruct sname) = ws.serializeData SerdeData.noneVal
      ∧ ws.serializeData SerdeData.unit = ws.serializeData SerdeData.noneVal) ∧
    (∀ v, ws.serializeData (SerdeData.someOf v) = ws.serializeData v) := by
  refine ⟨?_, fun sname => ⟨rfl, rfl⟩, fun v => rfl⟩
  have hcs : SerializerState.current_state ws.serializer_state
      = (Except.ok (field.row, field.col, field.value_format),
         { ws.serializer_state with
            structs := updateValue ws.serializer_state.structs ws.serializer_state.current_struct
              (updateValue fields ws.serializer_state.current_field
                { field with row := field.row + 1 }) }) := by
    simp [SerializerState.current_state, hs, hf]
  constructor <;>
    simp [Worksheet.serializeData, Worksheet.serialize_to_worksheet_cell, hcs]

/-- A worksheet whose cursor points at the registered struct `"S"` and field
`"f"`, used by the C7 witness. -/
def wsCursor : Worksheet Unit :=
  { cells := [],
    serializer_state :=
      { structs := [("S", [("f", fieldW)])], current_struct := "S",
        current_field := "f", current_row := 0 } }

/-- Witness for C7: serializing `None` at the registered cursor writes a
blank (empty-string) cell carrying the field's format. -/
theorem serializer_none_writes_blank_witness :
    (wsCursor.serializeData SerdeData.noneVal).1.cells
      = wsCursor.cells ++ [(fieldW.row, fieldW.col, CellData.string "", fieldW.value_format)] :=
  ((serializer_none_writes_blank wsCursor [("f", fieldW)] fieldW rfl rfl).1).1

/-! ### Header deserialization (`DeSerializerHeader` / `deserialize_headers`) -/

/-- `SerializerHeader` from `serializer.rs`: the struct name and field names
captured during header serialization/deserialization. -/
structure SerializerHeader where
  struct_name : String
  field_names : List String
deriving DecidableEq

/-- The static type information serde's derived `Deserialize` impl for a
struct `T` carries: `T`'s name and its field names in declaration order
(the `name` and `fields` arguments the derive passes to
`Deserializer::deserialize_struct`). -/
structure StructDesc where
  name : String
  fields : List String
deriving DecidableEq

/-- The mutable capture state of `DeSerializerHeader` (`struct_name` and
`field_names` behind `&mut` references). -/
structure DeSerializerHeader where
  struct_name : String
  field_names : List String
deriving DecidableEq

/-- `DeSerializerHeader::deserialize_struct`: record the struct name and
field list, then return an error so that deserialization stops before any
field value is read. -/
def DeSerializerHeader.deserialize_struct (_self : DeSerializerHeader)
    (name : String) (fields : List String) :
    DeSerializerHeader × Except XlsxError Unit :=
  ({ struct_name := name, field_names := fields },
   Except.error (XlsxError.SerdeError "Deserialization error"))

/-- `DeSerializerHeader::deserialize_any`, to which every other
`Deserializer` method is forwarded (`forward_to_deserialize_any!`): fail
immediately with a serde error, reading nothing. -/
def DeSerializerHeader.deserialize_any (self : DeSerializerHeader) :
    DeSerializerHeader × Except XlsxError Unit :=
  (self, Except.error (XlsxError.SerdeError "Deserialization error"))

/-- `deserialize_headers::<T>()`: run `T::deserialize` against a
`DeSerializerHeader` (the derived impl immediately calls
`deserialize_struct` with `T`'s static name and field list, given here by
`desc`), ignore the error result, and keep the captured names. -/
def deserialize_headers (desc : StructDesc) : SerializerHeader :=
  let init : DeSerializerHeader := { struct_name := "", field_names := [""] }
  let result := init.deserialize_struct desc.name desc.fields
  { struct_name := result.1.struct_name, field_names := result.1.field_names }

/-- C8: `deserialize_headers::<T>()` returns `T`'s struct name and its field
names in declaration order; `deserialize_struct` records the schema and then
errors, and every other deserializer method errors immediately, so no field
value is ever read. -/
theorem deserialize_headers_schema_only (desc : StructDesc) :
    (deserialize_headers desc).struct_name = desc.name ∧
    (deserialize_headers desc).field_names = desc.fields ∧
    (∀ (d : DeSerializerHeader) (name : String) (fields : List String),
      (d.deserialize_struct name fields).2
        = Except.error (XlsxError.SerdeError "Deserialization error")) ∧
    (∀ d : DeSerializerHeader,
      d.deserialize_any.2
        = Except.error (XlsxError.SerdeError "Deserialization error")) :=
  ⟨rfl, rfl, fun _ _ _ => rfl, fun _ => rfl⟩

/-! ## `src/core.rs` -/

/-- `DocProperties`, as used by `core.rs`: the document metadata strings
(`creation_time` is the already-formatted W3CDTF timestamp string). -/
structure DocProperties where
  title : String
  subject : String
  author : String
  keywords : String
  comment : String
  category : String
  status : String
  creation_time : String

/-- One XML output action of the XML writer. -/
inductive XmlEvent where
  | declarationEvent
  | startTag (tag : String) (attributes : List (String × String))
  | endTag (tag : String)
  | dataElement (tag : String) (text : String) (attributes : List (String × String))
  | dataElementOnly (tag : String) (text : String)
deriving DecidableEq

/-- Modelled from the spec: the XML writer (`xmlwriter.rs` is outside the
sources at hand).  The writer appends well-formed XML fragments to an
in-memory buffer; the embedding records the sequence of emitted elements. -/
structure XMLWriter where
  events : List XmlEvent

def XMLWriter.xml_declaration (self : XMLWriter) : XMLWriter :=
  { events := self.events ++ [XmlEvent.declarationEvent] }

def XMLWriter.xml_start_tag (self : XMLWriter) (tag : String)
    (attributes : List (String × String)) : XMLWriter :=
  { events := self.events ++ [XmlEvent.startTag tag attributes] }

def XMLWriter.xml_end_tag (self : XMLWriter) (tag : String) : XMLWriter :=
  { events := self.events ++ [XmlEvent.endTag tag] }

def XMLWriter.xml_data_element (self : XMLWriter) (tag text : String)
    (attributes : List (String × String)) : XMLWriter :=
  { events := self.events ++ [XmlEvent.dataElement tag text attributes] }

def XMLWriter.xml_data_element_only (self : XMLWriter) (tag text : String) : XMLWriter :=
  { events := self.events ++ [XmlEvent.dataElementOnly tag text] }

/-- The `Core` struct from `core.rs`. -/
structure Core where
  writer : XMLWriter
  properties : DocProperties

/-- `Core::write_cp_core_properties`. -/
def Core.write_cp_core_properties (self : Core) : Core :=
  { self with writer := self.writer.xml_start_tag "cp:coreProperties"
                  [("xmlns:cp", "http://schemas.openxmlformats.org/package/2006/metadata/core-properties"),
                   ("xmlns:dc", "http://purl.org/dc/elements/1.1/"),
                   ("xmlns:dcterms", "http://purl.org/dc/terms/"),
                   ("xmlns:dcmitype", "http://purl.org/dc/dcmitype/"),
                   ("xmlns:xsi", "http://www.w3.org/2001/XMLSchema-instance")] }

/-- `Core::write_dc_title` (emitted only when non-empty). -/
def Core.write_dc_title (self : Core) : Core :=
  if self.properties.title = "" then self
  else
    { self with
      writer := self.writer.xml_data_element_only "dc:title" self.properties.title }

/-- `Core::write_dc_subject` (emitted only when non-empty). -/
def Core.write_dc_subject (self : Core) : Core :=
  if self.properties.subject = "" then self
  else
    { self with
      writer := self.writer.xml_data_element_only "dc:subject" self.properties.subject }

/-- `Core::write_dc_creator`: always emitted, with the author string. -/
def Core.write_dc_creator (self : Core) : Core :=
  { self with
    writer := self.writer.xml_data_element_only "dc:creator" self.properties.author }

/-- `Core::write_cp_keywords` (emitted only when non-empty). -/
def Core.write_cp_keywords (self : Core) : Core :=
  if self.properties.keywords = "" then self
  else
    { self with
      writer := self.writer.xml_data_element_only "cp:keywords" self.properties.keywords }

/-- `Core::write_dc_description` (emitted only when non-empty). -/
def Core.write_dc_description (self : Core) : Core :=
  if self.properties.comment = "" then self
  else
    { self with
      writer := self.writer.xml_data_element_only "dc:description" self.properties.comment }

/-- `Core::write_cp_last_modified_by`: always emitted, with the author
string — the same string `write_dc_creator` writes. -/
def Core.write_cp_last_modified_by (self : Core) : Core :=
  { self with
    writer := self.writer.xml_data_element_only "cp:lastModifiedBy" self.properties.author }

/-- `Core::write_dcterms_created`: the creation time, typed `dcterms:W3CDTF`. -/
def Core.write_dcterms_created (self : Core) : Core :=
  { self with
    writer := self.writer.xml_data_element "dcterms:created" self.properties.creation_time
      [("xsi:type", "dcterms:W3CDTF")] }

/-- `Core::write_dcterms_modified`: also writes `self.properties.creation_time`
— the modification timestamp in the source is the creation timestamp. -/
def Core.write_dcterms_modified (self : Core) : Core :=
  { self with
    writer := self.writer.xml_data_element "dcterms:modified" self.properties.creation_time
      [("xsi:type", "dcterms:W3CDTF")] }

/-- `Core::write_cp_category` (emitted only when non-empty). -/
def Core.write_cp_category (self : Core) : Core :=
  if self.properties.category = "" then self
  else
    { self with
      writer := self.writer.xml_data_element_only "cp:category" self.properties.category }

/-- `Core::write_cp_content_status` (emitted only when non-empty). -/
def Core.write_cp_content_status (self : Core) : Core :=
  if self.properties.status = "" then self
  else
    { self with
      writer := self.writer.xml_data_element_only "cp:contentStatus" self.properties.status }

/-- `Core::assemble_xml_file`: the XML declaration, the element writes in
source order, and the closing `cp:coreProperties` tag. -/
def Core.assemble_xml_file (self : Core) : Core :=
  let result :=
    ({ self with writer := self.writer.xml_declaration
     }).write_cp_core_properties.write_dc_title.write_dc_subject.write_dc_creator.write_cp_keywords.write_dc_description.write_cp_last_modified_by.write_dcterms_created.write_dcterms_modified.write_cp_category.write_cp_content_status
  { result with writer := result.writer.xml_end_tag "cp:coreProperties" }

/-- The text of the first `xml_data_element` with the given tag. -/
def findDataElement (tag : String) : List XmlEvent → Option String
  | [] => none
  | XmlEvent.dataElement t text _ :: rest =>
      if t = tag then some text else findDataElement tag rest
  | _ :: rest => findDataElement tag rest

/-- The text of the first `xml_data_element_only` with the given tag. -/
def findDataElementOnly (tag : String) : List XmlEvent → Option String
  | [] => none
  | XmlEvent.dataElementOnly t text :: rest =>
      if t = tag then some text else findDataElementOnly tag rest
  | _ :: rest => findDataElementOnly tag rest

lemma findDataElement_append (tag : String) (l1 l2 : List XmlEvent) :
    findDataElement tag (l1 ++ l2)
      = match findDataElement tag l1 with
        | some t => some t
        | none => findDataElement tag l2 := by
  induction l1 with
  | nil => simp [findDataElement]
  | cons e rest ih =>
    cases e <;> simp [findDataElement, ih] <;> split <;> simp

lemma findDataElementOnly_append (tag : String) (l1 l2 : List XmlEvent) :
    findDataElementOnly tag (l1 ++ l2)
      = match findDataElementOnly tag l1 with
        | some t => some t
        | none => findDataElementOnly tag l2 := by
  induction l1 with
  | nil => simp [findDataElementOnly]
  | cons e rest ih =>
    cases e <;> simp [findDataElementOnly, ih] <;> split <;> simp

lemma write_dc_title_spec (c : Core) :
    (c.write_dc_title).writer.events
        = c.writer.events ++ (if c.properties.title = "" then []
            else [XmlEvent.dataElementOnly "dc:title" c.properties.title])
      ∧ (c.write_dc_title).properties = c.properties := by
  by_cases h : c.properties.title = "" <;>
    simp [Core.write_dc_title, XMLWriter.xml_data_element_only, h]

lemma write_dc_subject_spec (c : Core) :
    (c.write_dc_subject).writer.events
        = c.writer.events ++ (if c.properties.subject = "" then []
            else [XmlEvent.dataElementOnly "dc:subject" c.properties.subject])
      ∧ (c.write_dc_subject).properties = c.properties := by
  by_cases h : c.properties.subject = "" <;>
    simp [Core.write_dc_subject, XMLWriter.xml_data_element_only, h]

lemma write_cp_keywords_spec (c : Core) :
    (c.write_cp_keywords).writer.events
        = c.writer.events ++ (if c.properties.keywords = "" then []
            else [XmlEvent.dataElementOnly "cp:keywords" c.properties.keywords])
      ∧ (c.write_cp_keywords).properties = c.properties := by
  by_cases h : c.properties.keywords = "" <;>
    simp [Core.write_cp_keywords, XMLWriter.xml_data_element_only, h]

lemma write_dc_description_spec (c : Core) :
    (c.write_dc_description).writer.events
        = c.writer.events ++ (if c.properties.comment = "" then []
            else [XmlEvent.dataElementOnly "dc:description" c.properties.comment])
      ∧ (c.write_dc_description).properties = c.properties := by
  by_cases h : c.properties.comment = "" <;>
    simp [Core.write_dc_description, XMLWriter.xml_data_element_only, h]

lemma write_cp_category_spec (c : Core) :
    (c.write_cp_category).writer.events
        = c.writer.events ++ (if c.properties.category = "" then []
            else [XmlEvent.dataElementOnly "cp:category" c.properties.category])
      ∧ (c.write_cp_category).properties = c.properties := by
  by_cases h : c.properties.category = "" <;>
    simp [Core.write_cp_category, XMLWriter.xml_data_element_only, h]

lemma write_cp_content_status_spec (c : Core) :
    (c.write_cp_content_status).writer.events
        = c.writer.events ++ (if c.properties.status = "" then []
            else [XmlEvent.dataElementOnly "cp:contentStatus" c.properties.status])
      ∧ (c.write_cp_content_status).properties = c.properties := by
  by_cases h : c.properties.status = "" <;>
    simp [Core.write_cp_content_status, XMLWriter.xml_data_element_only, h]

/-- C9: for every `DocProperties` value, the core-properties XML writes
`dcterms:modified` with the same `creation_time` string as `dcterms:created`,
and `cp:lastModifiedBy` with the same `author` string as `dc:creator`; the
emitted modification timestamp and last-modifier can never differ from the
creation timestamp and author. -/
theorem core_modified_matches_created (props : DocProperties) :
    findDataElement "dcterms:created"
        ((Core.assemble_xml_file { writer := { events := [] }, properties := props }).writer.events)
      = some props.creation_time ∧
    findDataElement "dcterms:modified"
        ((Core.assemble_xml_file { writer := { events := [] }, properties := props }).writer.events)
      = some props.creation_time ∧
    findDataElementOnly "dc:creator"
        ((Core.assemble_xml_file { writer := { events := [] }, properties := props }).writer.events)
      = some props.author ∧
    findDataElementOnly "cp:lastModifiedBy"
        ((Core.assemble_xml_file { writer := { events := [] }, properties := props }).writer.events)
      = some props.author := by
  simp only [Core.assemble_xml_file, Core.write_cp_core_properties, Core.write_dc_creator,
    Core.write_cp_last_modified_by, Core.write_dcterms_created, Core.write_dcterms_modified,
    XMLWriter.xml_declaration, XMLWriter.xml_start_tag, XMLWriter.xml_end_tag,
    XMLWriter.xml_data_element, XMLWriter.xml_data_element_only,
    write_dc_title_spec, write_dc_subject_spec, write_cp_keywords_spec,
    write_dc_description_spec, write_cp_category_spec, write_cp_content_status_spec]
  simp only [findDataElement_append, findDataElementOnly_append]
  simp [findDataElement, findDataElementOnly, apply_ite]

end RustXlsxWriter
